import Mathlib

/-!
Shallow embedding of the authentication and session-security core of the
vaultguard password-manager backend (packages/backend/app): the token
service (app/security/tokens.py), the login rate limiter and the
authentication flow (app/services/auth.py), together with the data model
rows they operate on (app/models/user.py, app/models/auth_session.py,
app/models/audit_log.py, app/schemas/auth.py).

Modelling conventions:
- datetimes and monotonic-clock readings are integers in microseconds
  (Python datetimes have exact microsecond resolution; the float-valued
  monotonic clock is modelled on the same grid); `int(dt.timestamp())`
  is `timestampSeconds` (truncating T-division by 10^6, matching Python
  `int` truncation toward zero) and `datetime.fromtimestamp` of an
  integer is `fromtimestampMicros`;
- the JWT layer (PyJWT `encode`/`decode`) is modelled symbolically: a
  signed token is its typed claim set plus the identifier of the signing
  key; `decode` succeeds when the key pair matches, the issuer matches
  and the token is unexpired (PyJWT treats `exp <= now` as expired, with
  zero leeway), mirroring the options used by the source;
- the SHA-256 hex digest of refresh tokens is an abstract function
  `sha256hex`, a parameter of every definition that hashes;
- the Argon2 hasher is an abstract `Hasher` record, injected exactly as
  the `Hasher` protocol is in the source;
- SQLAlchemy `scalar_one_or_none` is modelled by `scalarOneOrNone`,
  which distinguishes zero, one and many matches (many raises);
- database mutation is explicit state passing on a `Db` record.
-/

/-- UUID values as they appear after parsing: compared by equality. -/
abbrev Uuid := String

inductive UserRole
  | owner
  | admin
  | manager
  | member
  | viewer
deriving DecidableEq, Repr

/-- String value of a role, as Python `user.role.value`. -/
def UserRole.value : UserRole → String
  | .owner => "owner"
  | .admin => "admin"
  | .manager => "manager"
  | .member => "member"
  | .viewer => "viewer"

inductive UserStatus
  | active
  | suspended
  | invited
deriving DecidableEq, Repr

/-- Row of the `users` table (app/models/user.py). -/
structure User where
  id : Uuid
  org_id : Uuid
  email : String
  name : String
  role : UserRole
  status : UserStatus
  public_key : String
  encrypted_private_key : String
  auth_verifier_hash : String
  mfa_enabled : Bool
deriving DecidableEq, Repr

/-- Row of the `sessions` table (app/models/auth_session.py); `device_info`
is the single-key dict built by the service, kept as its user-agent. -/
structure Session where
  id : Uuid
  user_id : Uuid
  refresh_token_hash : String
  device_user_agent : String
  ip_address : String
  expires_at : Int
  revoked_at : Option Int
deriving DecidableEq, Repr

inductive AuditLogAction
  | login
  | logout
  | refresh_token
  | session_revoke
  | failed_login
deriving DecidableEq, Repr

/-- Row of the `audit_logs` table, as written by `_append_audit_log`. -/
structure AuditLog where
  org_id : Uuid
  actor_id : Option Uuid
  action : AuditLogAction
  target_id : Option Uuid
  ip_address : String
  user_agent : String
  geo_location : String
deriving DecidableEq, Repr

/-- The mutable relational state the auth service touches. -/
structure Db where
  users : List User
  sessions : List Session
  audit_logs : List AuditLog
deriving DecidableEq, Repr

/-- Settings fields used by the auth core (app/core/settings.py);
`keypair` stands for the RSA key pair: signing with the private key and
verifying with the matching public key is modelled as equality of this
identifier. -/
structure Settings where
  jwt_issuer : String
  jwt_access_ttl_minutes : Int
  jwt_refresh_ttl_days : Int
  mfa_challenge_ttl_minutes : Int
  keypair : String
deriving DecidableEq, Repr

/-- Default settings values from app/core/settings.py. -/
def defaultSettings : Settings :=
  { jwt_issuer := "vaultguard"
    jwt_access_ttl_minutes := 15
    jwt_refresh_ttl_days := 7
    mfa_challenge_ttl_minutes := 5
    keypair := "default-rsa-keypair" }

/-- Python `int(dt.timestamp())` on a microsecond-resolution datetime:
whole seconds, truncated toward zero (T-division). -/
def timestampSeconds (t : Int) : Int :=
  Int.tdiv t 1000000

/-- Python `datetime.fromtimestamp` of an integer number of seconds,
back on the microsecond grid. -/
def fromtimestampMicros (s : Int) : Int :=
  s * 1000000

/-- Python `str` whitespace, for `strip`. -/
def isPySpace (c : Char) : Bool :=
  c = ' ' ∨ c = '\t' ∨ c = '\n' ∨ c = '\r' ∨ c = '\x0b' ∨ c = '\x0c'

/-- Python `str.strip()`: drop leading and trailing whitespace. -/
def pyStrip (s : String) : String :=
  ⟨((s.data.dropWhile isPySpace).reverse.dropWhile isPySpace).reverse⟩

/-- Python `str.lower()` on ASCII input. -/
def pyLower (s : String) : String :=
  ⟨s.data.map Char.toLower⟩

/-- Typed JWT claim set as placed in the payload dict by the issue
functions: `iat` and `exp` are the integer timestamps stored by
`int(... .timestamp())`; `purpose` is present exactly on MFA tokens. -/
structure JwtClaims where
  sub : Uuid
  org_id : Uuid
  email : String
  role : String
  iss : String
  iat : Int
  exp : Int
  purpose : Option String
deriving DecidableEq, Repr

/-- Result of `jwt.encode(payload, private_key, algorithm=RS256)`: the
claim set together with the key pair that signed it. -/
structure SignedToken where
  claims : JwtClaims
  key : String
deriving DecidableEq, Repr

/-- Decoded payload dataclass `AccessTokenPayload` (tokens.py): `iat` and
`exp` are datetimes reconstructed by `fromtimestamp`. -/
structure AccessTokenPayload where
  sub : Uuid
  org_id : Uuid
  email : String
  role : String
  iat : Int
  exp : Int
  iss : String
deriving DecidableEq, Repr

/-- Mirrors tokens.py `issue_access_token`: builds the payload with
issuer from settings, `iat`/`exp` truncated to whole seconds, signs with
the private key, returning the token and the (untruncated) expiry. -/
def issue_access_token (s : Settings) (user_id org_id : Uuid)
    (email role : String) (now : Int) (expires_in : Option Int) :
    SignedToken × Int :=
  let issued_at := now
  let expiry := issued_at + expires_in.getD (60 * s.jwt_access_ttl_minutes * 1000000)
  let payload : JwtClaims :=
    { sub := user_id
      org_id := org_id
      email := email
      role := role
      iss := s.jwt_issuer
      iat := timestampSeconds issued_at
      exp := timestampSeconds expiry
      purpose := none }
  ({ claims := payload, key := s.keypair }, expiry)

/-- Mirrors tokens.py `issue_mfa_token`: same shape as an access token
plus the purpose claim set to the mfa marker, with the MFA-challenge TTL
default. -/
def issue_mfa_token (s : Settings) (user_id org_id : Uuid)
    (email role : String) (now : Int) (expires_in : Option Int) :
    SignedToken × Int :=
  let issued_at := now
  let expiry := issued_at + expires_in.getD (60 * s.mfa_challenge_ttl_minutes * 1000000)
  let payload : JwtClaims :=
    { sub := user_id
      org_id := org_id
      email := email
      role := role
      iss := s.jwt_issuer
      iat := timestampSeconds issued_at
      exp := timestampSeconds expiry
      purpose := some "mfa" }
  ({ claims := payload, key := s.keypair }, expiry)

/-- Outcome of `jwt.decode(token, public_key, algorithms=[RS256],
issuer=..., options=require [sub, org_id, email, role, iat, exp, iss])`:
signature check is key-pair equality, the issuer must match, and the
token is expired when `exp <= now` (PyJWT with zero leeway). The typed
claim record always carries the required claims, so the presence check
is vacuous here; an extra `purpose` claim is not inspected. -/
def jwtDecodeChecks (s : Settings) (now : Int) (tok : SignedToken) : Bool :=
  tok.key = s.keypair ∧ tok.claims.iss = s.jwt_issuer ∧ ¬(fromtimestampMicros tok.claims.exp ≤ now)

/-- Mirrors tokens.py `validate_access_token`: decode with the required
claim list for access tokens, then rebuild `AccessTokenPayload` from the
named fields (`fromtimestamp` of the integer timestamps). No claim other
than the seven named ones is examined. -/
def validate_access_token (s : Settings) (now : Int) (tok : SignedToken) :
    Except Unit AccessTokenPayload :=
  if jwtDecodeChecks s now tok then
    .ok { sub := tok.claims.sub
          org_id := tok.claims.org_id
          email := tok.claims.email
          role := tok.claims.role
          iat := fromtimestampMicros tok.claims.iat
          exp := fromtimestampMicros tok.claims.exp
          iss := tok.claims.iss }
  else
    .error ()

/-- Constants fixed at the top of app/services/auth.py. -/
def MAX_FAILED_ATTEMPTS : ℕ := 5

def FAILED_ATTEMPTS_WINDOW_SECONDS : Int := 60 * 15 * 1000000

def MIN_FAILED_LOGIN_RESPONSE_SECONDS : Int := 200000

/-- State of `LoginRateLimiter._failed_attempts`: the per-IP deque of
monotonic failure timestamps, as an association list whose absent keys
read as the empty deque (`defaultdict(deque)`). -/
abbrev LimiterState := List (String × List Int)

namespace LoginRateLimiter

/-- Reading `self._failed_attempts[ip]` (empty when absent). -/
def limiterGet (st : LimiterState) (ip : String) : List Int :=
  (st.lookup ip).getD []

/-- Storing back the mutated deque for `ip`. -/
def limiterSet (st : LimiterState) (ip : String) (l : List Int) : LimiterState :=
  (ip, l) :: st.filter (fun p => p.1 ≠ ip)

/-- Mirrors `_prune_and_get`: popleft while the head is older than
`now - FAILED_ATTEMPTS_WINDOW_SECONDS`. -/
def _prune_and_get (st : LimiterState) (ip : String) (now : Int) : List Int :=
  (limiterGet st ip).dropWhile (fun t => t < now - FAILED_ATTEMPTS_WINDOW_SECONDS)

/-- Mirrors `is_rate_limited`: prune, then compare the stored count with
the threshold; the pruning mutates the stored deque. -/
def is_rate_limited (st : LimiterState) (ip : String) (now : Int) :
    Bool × LimiterState :=
  let failures := _prune_and_get st ip now
  (failures.length > MAX_FAILED_ATTEMPTS, limiterSet st ip failures)

/-- Mirrors `register_failure`: prune, append the current instant and
report whether the post-append count exceeds the threshold. -/
def register_failure (st : LimiterState) (ip : String) (now : Int) :
    Bool × LimiterState :=
  let failures := _prune_and_get st ip now
  let failures := failures ++ [now]
  (failures.length > MAX_FAILED_ATTEMPTS, limiterSet st ip failures)

/-- Mirrors `reset`: pop the key for `ip`. -/
def reset (st : LimiterState) (ip : String) : LimiterState :=
  st.filter (fun p => p.1 ≠ ip)

end LoginRateLimiter

/-- Injected password hasher (the `Hasher` protocol): `verify` already
carries the try/except wrapping of the call sites, returning false on a
verification error. -/
structure Hasher where
  hash : String → String
  verify : String → String → Bool

/-- Request schema `RegisterRequest` (app/schemas/auth.py): note it has
no role and no status field. -/
structure RegisterRequest where
  email : String
  name : String
  org_id : Uuid
  auth_verifier : String
  public_key : String
  encrypted_private_key : String
deriving DecidableEq, Repr

/-- Request schema `LoginRequest` (app/schemas/auth.py). -/
structure LoginRequest where
  email : String
  auth_verifier : String
deriving DecidableEq, Repr

/-- The typed exceptions raised by app/services/auth.py, plus the
SQLAlchemy `MultipleResultsFound` that `scalar_one_or_none` raises when
a query matches more than one row. -/
inductive AuthError
  | duplicateEmail
  | invalidCredentials
  | tooManyAttempts
  | invalidRefreshToken
  | invalidAccessToken
  | sessionNotFound
  | multipleResultsFound
deriving DecidableEq, Repr

/-- Result of SQLAlchemy `scalar_one_or_none`: no row, one row, or the
`MultipleResultsFound` error. -/
inductive ScalarResult (α : Type)
  | noRow
  | one (a : α)
  | many
deriving DecidableEq, Repr

def scalarOneOrNone {α : Type} (p : α → Bool) (l : List α) : ScalarResult α :=
  match l.filter p with
  | [] => .noRow
  | [a] => .one a
  | _ => .many

/-- Updating the single ORM object returned by a query, in place: the
first (in the reachable branches: unique) element satisfying `p`. -/
def updateFirst {α : Type} (p : α → Bool) (f : α → α) : List α → List α
  | [] => []
  | x :: xs => if p x then f x :: xs else x :: updateFirst p f xs

/-- Dataclass `LoginResult` of app/services/auth.py. -/
structure LoginResult where
  access_token : SignedToken
  refresh_token : String
  user : User
deriving DecidableEq, Repr

/-- Dataclass `RefreshResult` of app/services/auth.py. -/
structure RefreshResult where
  access_token : SignedToken
  refresh_token : String
deriving DecidableEq, Repr

/-- Mirrors `register_user`: normalize the email, build the row with
role MEMBER and status ACTIVE, and let the unique-constraint violation
on commit surface as `DuplicateEmailError` (rollback leaves the db
unchanged). `newId` is the uuid4 primary-key default. -/
def register_user (hasher : Hasher) (db : Db) (payload : RegisterRequest)
    (newId : Uuid) : Except AuthError User × Db :=
  let user : User :=
    { id := newId
      org_id := payload.org_id
      email := pyLower (pyStrip payload.email)
      name := pyStrip payload.name
      role := .member
      status := .active
      public_key := payload.public_key
      encrypted_private_key := payload.encrypted_private_key
      auth_verifier_hash := hasher.hash payload.auth_verifier
      mfa_enabled := false }
  if db.users.any (fun u => u.email = user.email) then
    (.error .duplicateEmail, db)
  else
    (.ok user, { db with users := db.users ++ [user] })

section WithSha

variable (sha256hex : String → String)

/-- Mirrors `login_user`. Explicit inputs replacing ambient effects:
`tCheck` and `tFail` are the monotonic instants of the two rate-limiter
interactions (`is_rate_limited` at entry, `register_failure` after a
failed verification — `reset` on success); `now` is the wall-clock
reading; `freshRefreshToken` is the `secrets.token_urlsafe(48)` output
and `freshSessionId` the uuid4 session id. The dummy-hash verification
and the timing-floor sleep have no effect on state or result and are
elided here (the sleep is modelled by `_sleep_to_minimum_failed_duration`
below). -/
def login_user (hasher : Hasher) (s : Settings) (db : Db)
    (payload : LoginRequest) (client_ip user_agent : String)
    (limiter : LimiterState) (tCheck tFail : Int) (now : Int)
    (freshRefreshToken : String) (freshSessionId : Uuid) :
    Except AuthError LoginResult × Db × LimiterState :=
  let (limited, st1) := LoginRateLimiter.is_rate_limited limiter client_ip tCheck
  if limited then
    (.error .tooManyAttempts, db, st1)
  else
    let normalized_email := pyLower (pyStrip payload.email)
    match scalarOneOrNone (fun u => u.email = normalized_email) db.users with
    | .many => (.error .multipleResultsFound, db, st1)
    | .noRow =>
        let (rate_limited, st2) := LoginRateLimiter.register_failure st1 client_ip tFail
        if rate_limited then
          (.error .tooManyAttempts, db, st2)
        else
          (.error .invalidCredentials, db, st2)
    | .one user =>
        let is_valid_verifier := hasher.verify user.auth_verifier_hash payload.auth_verifier
        if ¬is_valid_verifier ∨ user.status ≠ .active then
          let (rate_limited, st2) := LoginRateLimiter.register_failure st1 client_ip tFail
          if rate_limited then
            (.error .tooManyAttempts, db, st2)
          else
            (.error .invalidCredentials, db, st2)
        else
          let st2 := LoginRateLimiter.reset st1 client_ip
          let access_token :=
            (issue_access_token s user.id user.org_id user.email user.role.value now none).1
          let refresh_token_hash := sha256hex freshRefreshToken
          let expires_at := now + 86400 * s.jwt_refresh_ttl_days * 1000000
          let sess : Session :=
            { id := freshSessionId
              user_id := user.id
              refresh_token_hash := refresh_token_hash
              device_user_agent := user_agent
              ip_address := client_ip
              expires_at := expires_at
              revoked_at := none }
          let audit : AuditLog :=
            { org_id := user.org_id
              actor_id := some user.id
              action := .login
              target_id := some sess.id
              ip_address := client_ip
              user_agent := user_agent
              geo_location := "unknown" }
          (.ok { access_token := access_token, refresh_token := freshRefreshToken, user := user },
           { db with sessions := db.sessions ++ [sess], audit_logs := db.audit_logs ++ [audit] },
           st2)

end WithSha

/-- Mirrors `_sleep_to_minimum_failed_duration`, but returning the
duration handed to `asyncio.sleep` (zero when no sleep happens):
`started` is the monotonic instant captured at the top of `login_user`
and `mono` the monotonic instant when the helper runs. -/
def _sleep_to_minimum_failed_duration (started mono : Int) : Int :=
  let elapsed := mono - started
  let remaining := MIN_FAILED_LOGIN_RESPONSE_SECONDS - elapsed
  if remaining > 0 then remaining else 0

/-- Mirrors `_is_expired` (timezone normalization is identity here). -/
def _is_expired (expires_at reference : Int) : Bool :=
  expires_at ≤ reference

/-- Mirrors `_find_active_user_by_identifier`: select the users with
status ACTIVE, then return the first candidate whose id equals the
identifier (`_uuids_equal` on parsed UUID values is plain equality). -/
def _find_active_user_by_identifier (db : Db) (identifier : Uuid) : Option User :=
  (db.users.filter (fun u => u.status = UserStatus.active)).find?
    (fun candidate => candidate.id = identifier)

/-- Mirrors `get_user_from_access_token`: validate the access token,
then require an active stored user whose id, email and org id match the
claims; anything else raises `InvalidAccessTokenError`. `jwtNow` is the
clock reading PyJWT uses for the expiry check. -/
def get_user_from_access_token (s : Settings) (jwtNow : Int) (db : Db)
    (access_token : SignedToken) : Except AuthError User :=
  match validate_access_token s jwtNow access_token with
  | .error _ => .error .invalidAccessToken
  | .ok claims =>
      match _find_active_user_by_identifier db claims.sub with
      | none => .error .invalidAccessToken
      | some user =>
          if user.status ≠ UserStatus.active ∨ user.email ≠ claims.email
              ∨ user.org_id ≠ claims.org_id then
            .error .invalidAccessToken
          else
            .ok user

section WithSha2

variable (sha256hex : String → String)

/-- Mirrors `refresh_tokens`: look up the unrevoked session by the hash
of the presented token; missing means `InvalidRefreshTokenError`; found
but expired means revoke-and-fail; then re-check the owning user is
active, rotate (revoke the redeemed row, insert a fresh one) and issue
a new access token. `nextToken` is the `secrets.token_urlsafe(48)`
output and `freshSessionId` the uuid4 id of the rotated session. -/
def refresh_tokens (s : Settings) (db : Db) (refresh_token : String)
    (client_ip user_agent : String) (now : Int)
    (nextToken : String) (freshSessionId : Uuid) :
    Except AuthError RefreshResult × Db :=
  let refresh_token_hash := sha256hex refresh_token
  let sessMatch := fun (x : Session) =>
    x.refresh_token_hash = refresh_token_hash ∧ x.revoked_at = none
  match scalarOneOrNone sessMatch db.sessions with
  | .many => (.error .multipleResultsFound, db)
  | .noRow => (.error .invalidRefreshToken, db)
  | .one current_session =>
      if _is_expired current_session.expires_at now then
        let db1 := { db with
          sessions := updateFirst sessMatch
            (fun x => { x with revoked_at := some now }) db.sessions }
        (.error .invalidRefreshToken, db1)
      else
        match _find_active_user_by_identifier db current_session.user_id with
        | none => (.error .invalidRefreshToken, db)
        | some user =>
            if user.status ≠ UserStatus.active then
              (.error .invalidRefreshToken, db)
            else
              let next_refresh_hash := sha256hex nextToken
              let next_expiry := now + 86400 * s.jwt_refresh_ttl_days * 1000000
              let rotated_session : Session :=
                { id := freshSessionId
                  user_id := user.id
                  refresh_token_hash := next_refresh_hash
                  device_user_agent := user_agent
                  ip_address := client_ip
                  expires_at := next_expiry
                  revoked_at := none }
              let access_token :=
                (issue_access_token s user.id user.org_id user.email user.role.value now none).1
              let audit : AuditLog :=
                { org_id := user.org_id
                  actor_id := some user.id
                  action := .refresh_token
                  target_id := some rotated_session.id
                  ip_address := client_ip
                  user_agent := user_agent
                  geo_location := "unknown" }
              let db1 := { db with
                sessions :=
                  updateFirst sessMatch (fun x => { x with revoked_at := some now })
                    db.sessions ++ [rotated_session]
                audit_logs := db.audit_logs ++ [audit] }
              (.ok { access_token := access_token, refresh_token := nextToken }, db1)

/-- Mirrors `revoke_session_by_refresh_token`: resolve the caller from
the access token, look up the unrevoked session by the presented
refresh-token hash, require ownership, mark revoked and audit LOGOUT. -/
def revoke_session_by_refresh_token (s : Settings) (db : Db)
    (access_token : SignedToken) (refresh_token : String)
    (client_ip user_agent : String) (jwtNow now : Int) :
    Except AuthError Unit × Db :=
  match get_user_from_access_token s jwtNow db access_token with
  | .error e => (.error e, db)
  | .ok current_user =>
      let refresh_token_hash := sha256hex refresh_token
      let sessMatch := fun (x : Session) =>
        x.refresh_token_hash = refresh_token_hash ∧ x.revoked_at = none
      match scalarOneOrNone sessMatch db.sessions with
      | .many => (.error .multipleResultsFound, db)
      | .noRow => (.error .sessionNotFound, db)
      | .one auth_session =>
          if auth_session.user_id ≠ current_user.id then
            (.error .sessionNotFound, db)
          else
            let audit : AuditLog :=
              { org_id := current_user.org_id
                actor_id := some current_user.id
                action := .logout
                target_id := some auth_session.id
                ip_address := client_ip
                user_agent := user_agent
                geo_location := "unknown" }
            (.ok (), { db with
              sessions := updateFirst sessMatch
                (fun x => { x with revoked_at := some now }) db.sessions
              audit_logs := db.audit_logs ++ [audit] })

end WithSha2

/-- Mirrors `revoke_session_by_id`: resolve the caller, fetch the target
session by primary key (any revocation state), require ownership, set
`revoked_at` only when it is still null, and audit SESSION_REVOKE. -/
def revoke_session_by_id (s : Settings) (db : Db)
    (access_token : SignedToken) (session_id : Uuid)
    (client_ip user_agent : String) (jwtNow now : Int) :
    Except AuthError Unit × Db :=
  match get_user_from_access_token s jwtNow db access_token with
  | .error e => (.error e, db)
  | .ok current_user =>
      match db.sessions.find? (fun x => x.id = session_id) with
      | none => (.error .sessionNotFound, db)
      | some target_session =>
          if target_session.user_id ≠ current_user.id then
            (.error .sessionNotFound, db)
          else
            let audit : AuditLog :=
              { org_id := current_user.org_id
                actor_id := some current_user.id
                action := .session_revoke
                target_id := some target_session.id
                ip_address := client_ip
                user_agent := user_agent
                geo_location := "unknown" }
            (.ok (), { db with
              sessions := updateFirst (fun x => x.id = session_id)
                (fun x => if x.revoked_at = none then { x with revoked_at := some now } else x)
                db.sessions
              audit_logs := db.audit_logs ++ [audit] })

/-- Modelled from the spec: the result shape of the MFA-aware login that
the API layer consumes (`mfa_required`, `mfa_token`, optional token pair
and user); the provided services/auth.py lacks these fields while its
caller app/api/v1/auth.py and tests read them. -/
structure MfaLoginResult where
  access_token : Option SignedToken
  refresh_token : Option String
  user : Option User
  mfa_required : Bool
  mfa_token : Option SignedToken
deriving DecidableEq, Repr

section WithSha3

variable (sha256hex : String → String)

/-- Modelled from the spec: the MFA-aware `login_user` missing from the
provided services/auth.py (only its caller app/api/v1/auth.py and
test_auth_mfa_integration.py are present). It follows the provided
`login_user` verbatim up to the success branch; there, per the spec, on
success the rate limiter is reset and, if the principal has MFA
enabled, an MFA-challenge token is issued and returned with no access
token and no session row created yet; otherwise the full token pair and
session row are produced exactly as in `login_user`. -/
def login_user_mfa (hasher : Hasher) (s : Settings) (db : Db)
    (payload : LoginRequest) (client_ip user_agent : String)
    (limiter : LimiterState) (tCheck tFail : Int) (now : Int)
    (freshRefreshToken : String) (freshSessionId : Uuid) :
    Except AuthError MfaLoginResult × Db × LimiterState :=
  let (limited, st1) := LoginRateLimiter.is_rate_limited limiter client_ip tCheck
  if limited then
    (.error .tooManyAttempts, db, st1)
  else
    let normalized_email := pyLower (pyStrip payload.email)
    match scalarOneOrNone (fun u => u.email = normalized_email) db.users with
    | .many => (.error .multipleResultsFound, db, st1)
    | .noRow =>
        let (rate_limited, st2) := LoginRateLimiter.register_failure st1 client_ip tFail
        if rate_limited then
          (.error .tooManyAttempts, db, st2)
        else
          (.error .invalidCredentials, db, st2)
    | .one user =>
        let is_valid_verifier := hasher.verify user.auth_verifier_hash payload.auth_verifier
        if ¬is_valid_verifier ∨ user.status ≠ .active then
          let (rate_limited, st2) := LoginRateLimiter.register_failure st1 client_ip tFail
          if rate_limited then
            (.error .tooManyAttempts, db, st2)
          else
            (.error .invalidCredentials, db, st2)
        else
          let st2 := LoginRateLimiter.reset st1 client_ip
          if user.mfa_enabled then
            let mfa_token :=
              (issue_mfa_token s user.id user.org_id user.email user.role.value now none).1
            (.ok { access_token := none
                   refresh_token := none
                   user := none
                   mfa_required := true
                   mfa_token := some mfa_token }, db, st2)
          else
            let access_token :=
              (issue_access_token s user.id user.org_id user.email user.role.value now none).1
            let refresh_token_hash := sha256hex freshRefreshToken
            let expires_at := now + 86400 * s.jwt_refresh_ttl_days * 1000000
            let sess : Session :=
              { id := freshSessionId
                user_id := user.id
                refresh_token_hash := refresh_token_hash
                device_user_agent := user_agent
                ip_address := client_ip
                expires_at := expires_at
                revoked_at := none }
            let audit : AuditLog :=
              { org_id := user.org_id
                actor_id := some user.id
                action := .login
                target_id := some sess.id
                ip_address := client_ip
                user_agent := user_agent
                geo_location := "unknown" }
            (.ok { access_token := some access_token
                   refresh_token := some freshRefreshToken
                   user := some user
                   mfa_required := false
                   mfa_token := none },
             { db with sessions := db.sessions ++ [sess], audit_logs := db.audit_logs ++ [audit] },
             st2)

/-- Repeated invocation of `login_user` on a fixed request: each attempt
carries the monotonic instants of its two rate-limiter interactions.
Used to state the brute-force rate-limiting behaviour. -/
def runFailedLogins (hasher : Hasher) (s : Settings)
    (payload : LoginRequest) (client_ip user_agent : String)
    (now : Int) (freshRefreshToken : String) (freshSessionId : Uuid) :
    Db → LimiterState → List (Int × Int) →
    List (Except AuthError LoginResult) × Db × LimiterState
  | db, st, [] => ([], db, st)
  | db, st, (c, f) :: rest =>
      let (r, db1, st1) :=
        login_user sha256hex hasher s db payload client_ip user_agent st c f now
          freshRefreshToken freshSessionId
      let (rs, db2, st2) :=
        runFailedLogins hasher s payload client_ip user_agent now
          freshRefreshToken freshSessionId db1 st1 rest
      (r :: rs, db2, st2)

end WithSha3

/-- A login request destined to fail on this database with this hasher:
no user has the normalized email, or the single matching user fails
verifier verification or is not active. -/
def loginAttemptFails (hasher : Hasher) (db : Db) (payload : LoginRequest) : Prop :=
  match scalarOneOrNone (fun u => u.email = pyLower (pyStrip payload.email)) db.users with
  | .noRow => True
  | .one user =>
      hasher.verify user.auth_verifier_hash payload.auth_verifier = false
        ∨ user.status ≠ UserStatus.active
  | .many => False

/-- Sample hasher for concrete witnesses: the stored hash is the secret
itself and verification is string equality. -/
def idHasher : Hasher :=
  { hash := fun v => v, verify := fun h v => h = v }

/-- Sample active user without MFA. -/
def userA : User :=
  { id := "u1", org_id := "org1", email := "a@example.com", name := "A"
    role := .member, status := .active, public_key := "pk"
    encrypted_private_key := "epk", auth_verifier_hash := "secret1"
    mfa_enabled := false }

/-- Sample active user with MFA enabled. -/
def userM : User :=
  { id := "u2", org_id := "org1", email := "m@example.com", name := "M"
    role := .member, status := .active, public_key := "pk"
    encrypted_private_key := "epk", auth_verifier_hash := "secret2"
    mfa_enabled := true }

/-- Sample suspended user. -/
def userS : User :=
  { id := "u3", org_id := "org1", email := "s@example.com", name := "S"
    role := .member, status := .suspended, public_key := "pk"
    encrypted_private_key := "epk", auth_verifier_hash := "secret3"
    mfa_enabled := false }

/-- Sample unrevoked session of `userA`, expiring at t = 1000. -/
def sessA : Session :=
  { id := "sess1", user_id := "u1", refresh_token_hash := "rt1"
    device_user_agent := "ua", ip_address := "10.0.0.1"
    expires_at := 1000, revoked_at := none }

/-- Sample unrevoked session of the suspended `userS`. -/
def sessS : Session :=
  { id := "sess3", user_id := "u3", refresh_token_hash := "rt3"
    device_user_agent := "ua", ip_address := "10.0.0.1"
    expires_at := 1000, revoked_at := none }

/-- Sample access token for `userA`, issued at t = 0 by the default
settings key, hence valid until t = 900. -/
def tokenA : SignedToken :=
  (issue_access_token defaultSettings "u1" "org1" "a@example.com" "member" 0 none).1

deriving instance DecidableEq for Except

/-! ## Shared helper lemmas -/

theorem limiterGet_limiterSet (st : LimiterState) (ip : String) (l : List Int) :
    LoginRateLimiter.limiterGet (LoginRateLimiter.limiterSet st ip l) ip = l := by
  simp [LoginRateLimiter.limiterGet, LoginRateLimiter.limiterSet, List.lookup]

theorem limiterGet_reset (st : LimiterState) (ip : String) :
    LoginRateLimiter.limiterGet (LoginRateLimiter.reset st ip) ip = [] := by
  unfold LoginRateLimiter.limiterGet LoginRateLimiter.reset
  induction st with
  | nil => rfl
  | cons p rest ih =>
      by_cases hp : p.1 = ip
      · simpa [List.filter_cons, hp] using ih
      · have hb : (ip == p.1) = false := beq_eq_false_iff_ne.mpr (Ne.symm hp)
        simpa [List.filter_cons, hp, List.lookup, hb] using ih

theorem dropWhile_eq_self_of_forall_not {α : Type} (p : α → Bool) (l : List α)
    (h : ∀ x ∈ l, ¬ p x) : l.dropWhile p = l := by
  cases l with
  | nil => rfl
  | cons x xs =>
      rw [List.dropWhile_cons]
      simp [h x (by simp)]

/-! ## Claim theorems -/

/-- C7: for every user id, org id, email, role and issuance time, the
token minted by `issue_access_token` is accepted by
`validate_access_token` (at any validation instant before its expiry)
and the decoded payload carries the same subject, org id, email, role
and issuer, with issued-at and expiry equal to the originals truncated
to whole seconds. -/
theorem C7_access_token_round_trip (s : Settings) (user_id org_id : Uuid)
    (email role : String) (now valNow : Int)
    (h : valNow < fromtimestampMicros (timestampSeconds (issue_access_token s user_id org_id email role now none).2)) :
    validate_access_token s valNow (issue_access_token s user_id org_id email role now none).1 =
      .ok { sub := user_id, org_id := org_id, email := email, role := role
            iat := fromtimestampMicros (timestampSeconds now)
            exp := fromtimestampMicros (timestampSeconds (issue_access_token s user_id org_id email role now none).2)
            iss := s.jwt_issuer } := by
  have hx : ¬ (fromtimestampMicros (timestampSeconds (now + (60 * s.jwt_access_ttl_minutes * 1000000))) ≤ valNow) := by
    simpa [issue_access_token] using not_le.mpr h
  simp [validate_access_token, issue_access_token, jwtDecodeChecks, hx]

/-- Closed instance of C7 at concrete inputs: issuing at t = 5.5 s with
default settings and validating at t = 100 microseconds; issued-at and
expiry come back truncated to whole seconds. -/
theorem C7_witness :
    validate_access_token defaultSettings 100
        (issue_access_token defaultSettings "u1" "org1" "a@example.com" "member" 5500000 none).1 =
      .ok { sub := "u1", org_id := "org1", email := "a@example.com", role := "member"
            iat := 5000000, exp := 905000000, iss := "vaultguard" } := by
  rw [C7_access_token_round_trip defaultSettings "u1" "org1" "a@example.com" "member" 5500000 100
    (by decide)]
  decide

/-- C1 (code bug witness): a correctly-signed, unexpired MFA challenge
token minted by `issue_mfa_token` is returned as a valid
`AccessTokenPayload` by `validate_access_token` instead of being
rejected: the validator never inspects the purpose claim. -/
theorem C1_mfa_token_accepted_as_access_token :
    validate_access_token defaultSettings 0
        (issue_mfa_token defaultSettings "u2" "org1" "m@example.com" "member" 0 none).1 =
      .ok { sub := "u2", org_id := "org1", email := "m@example.com", role := "member"
            iat := 0, exp := 300000000, iss := "vaultguard" } := by
  decide

/-- C8: the timing-normalization helper sleeps exactly
max(0, floor - elapsed), so a failure path returns at
max(mono, started + floor): at least the floor after `started`, and
with no delay once the floor has already elapsed. -/
theorem C8_sleep_to_minimum_failed_duration (started mono : Int) :
    _sleep_to_minimum_failed_duration started mono =
        max 0 (MIN_FAILED_LOGIN_RESPONSE_SECONDS - (mono - started)) ∧
    mono + _sleep_to_minimum_failed_duration started mono =
        max mono (started + MIN_FAILED_LOGIN_RESPONSE_SECONDS) := by
  unfold _sleep_to_minimum_failed_duration
  constructor
  · by_cases h : MIN_FAILED_LOGIN_RESPONSE_SECONDS - (mono - started) > 0
    · rw [if_pos h, max_eq_right (le_of_lt h)]
    · rw [if_neg h, max_eq_left (by linarith)]
  · by_cases h : MIN_FAILED_LOGIN_RESPONSE_SECONDS - (mono - started) > 0
    · rw [if_pos h, max_eq_right (by linarith)]
      ring
    · rw [if_neg h, max_eq_left (by linarith)]
      ring

/-- C10: every user `register_user` creates has role MEMBER and status
ACTIVE, whatever the request contains (the request schema has no role
or status field). -/
theorem C10_register_member_active (hasher : Hasher) (db : Db)
    (payload : RegisterRequest) (newId : Uuid) (u : User) (db2 : Db)
    (h : register_user hasher db payload newId = (.ok u, db2)) :
    u.role = UserRole.member ∧ u.status = UserStatus.active := by
  unfold register_user at h
  simp only [] at h
  split at h
  · simp at h
  · rw [Prod.mk.injEq] at h
    have hu := h.1
    simp only [Except.ok.injEq] at hu
    subst hu
    exact ⟨rfl, rfl⟩

/-- Closed instance of C10: registering a fresh email on an empty
database yields a MEMBER-role, ACTIVE-status user. -/
theorem C10_witness :
    ({ id := "u9", org_id := "org1", email := "n@example.com", name := "N"
       role := .member, status := .active, public_key := "pk"
       encrypted_private_key := "epk", auth_verifier_hash := "verif9"
       mfa_enabled := false } : User).role = UserRole.member ∧
    ({ id := "u9", org_id := "org1", email := "n@example.com", name := "N"
       role := .member, status := .active, public_key := "pk"
       encrypted_private_key := "epk", auth_verifier_hash := "verif9"
       mfa_enabled := false } : User).status = UserStatus.active :=
  C10_register_member_active idHasher ⟨[], [], []⟩
    { email := "n@example.com", name := "N", org_id := "org1"
      auth_verifier := "verif9", public_key := "pk", encrypted_private_key := "epk" }
    "u9" _ ⟨[{ id := "u9", org_id := "org1", email := "n@example.com", name := "N"
               role := .member, status := .active, public_key := "pk"
               encrypted_private_key := "epk", auth_verifier_hash := "verif9"
               mfa_enabled := false }], [], []⟩ (by decide)

/-- C9: `get_user_from_access_token` returns a user only when the token
validates and that user is stored, active, and matches the claims in
id, email and org id; whenever the token fails validation or no stored
active user matches all three claims, it raises
`InvalidAccessTokenError`. -/
theorem C9_get_user_from_access_token_spec (s : Settings) (jwtNow : Int)
    (db : Db) (tok : SignedToken) :
    (∀ u, get_user_from_access_token s jwtNow db tok = .ok u →
       ∃ claims, validate_access_token s jwtNow tok = .ok claims ∧
         u ∈ db.users ∧ u.status = UserStatus.active ∧
         u.id = claims.sub ∧ u.email = claims.email ∧ u.org_id = claims.org_id) ∧
    (∀ claims, validate_access_token s jwtNow tok = .ok claims →
       (¬ ∃ u ∈ db.users, u.status = UserStatus.active ∧ u.id = claims.sub ∧
           u.email = claims.email ∧ u.org_id = claims.org_id) →
       get_user_from_access_token s jwtNow db tok = .error .invalidAccessToken) ∧
    (validate_access_token s jwtNow tok = .error () →
       get_user_from_access_token s jwtNow db tok = .error .invalidAccessToken) := by
  refine ⟨?_, ?_, ?_⟩
  · intro u hu
    unfold get_user_from_access_token at hu
    cases hval : validate_access_token s jwtNow tok with
    | error e =>
        simp only [hval] at hu
        simp at hu
    | ok claims =>
        simp only [hval] at hu
        cases hfind : _find_active_user_by_identifier db claims.sub with
        | none =>
            simp only [hfind] at hu
            simp at hu
        | some v =>
            simp only [hfind] at hu
            by_cases hcond : v.status ≠ UserStatus.active ∨ v.email ≠ claims.email
                ∨ v.org_id ≠ claims.org_id
            · rw [if_pos hcond] at hu
              simp at hu
            · rw [if_neg hcond] at hu
              have hvu : v = u := by simpa using hu
              subst hvu
              push_neg at hcond
              obtain ⟨_, h2, h3⟩ := hcond
              unfold _find_active_user_by_identifier at hfind
              have hmem := List.mem_of_find?_eq_some hfind
              have hid := List.find?_some hfind
              refine ⟨claims, rfl, (List.mem_filter.mp hmem).1, ?_, by simpa using hid, h2, h3⟩
              simpa using (List.mem_filter.mp hmem).2
  · intro claims hval hnone
    unfold get_user_from_access_token
    simp only [hval]
    cases hfind : _find_active_user_by_identifier db claims.sub with
    | none => simp only [hfind]
    | some v =>
        simp only [hfind]
        unfold _find_active_user_by_identifier at hfind
        have hmem := List.mem_of_find?_eq_some hfind
        have hid : v.id = claims.sub := by simpa using List.find?_some hfind
        have hstat : v.status = UserStatus.active := by
          simpa using (List.mem_filter.mp hmem).2
        have hbad : v.email ≠ claims.email ∨ v.org_id ≠ claims.org_id := by
          by_contra hc
          push_neg at hc
          exact hnone ⟨v, (List.mem_filter.mp hmem).1, hstat, hid, hc.1, hc.2⟩
        rw [if_pos (by tauto)]
  · intro hval
    unfold get_user_from_access_token
    simp only [hval]

/-- Closed instance of C9 at concrete inputs: a valid token for the
stored active `userA` resolves to `userA` with matching claims. -/
theorem C9_witness :
    ∃ claims, validate_access_token defaultSettings 0 tokenA = .ok claims ∧
      userA ∈ (⟨[userA], [], []⟩ : Db).users ∧ userA.status = UserStatus.active ∧
      userA.id = claims.sub ∧ userA.email = claims.email ∧ userA.org_id = claims.org_id :=
  (C9_get_user_from_access_token_spec defaultSettings 0 ⟨[userA], [], []⟩ tokenA).1
    userA (by decide)

theorem filter_eq_singleton_decomp {α : Type} (p : α → Bool) (l : List α) (a : α)
    (h : l.filter p = [a]) :
    ∃ l1 l2, l = l1 ++ a :: l2 ∧ (∀ x ∈ l1, ¬ p x) ∧ (∀ x ∈ l2, ¬ p x) ∧ p a := by
  induction l with
  | nil => simp at h
  | cons x xs ih =>
      rw [List.filter_cons] at h
      by_cases hx : p x
      · rw [if_pos hx] at h
        have hxa : x = a ∧ xs.filter p = [] := by
          constructor
          · exact (List.cons_eq_cons.mp h).1
          · exact (List.cons_eq_cons.mp h).2
        obtain ⟨rfl, htail⟩ := hxa
        refine ⟨[], xs, by simp, by simp, ?_, hx⟩
        intro y hy
        simpa using List.filter_eq_nil_iff.mp htail y hy
      · rw [if_neg hx] at h
        obtain ⟨l1, l2, rfl, h1, h2, hpa⟩ := ih h
        refine ⟨x :: l1, l2, rfl, ?_, h2, hpa⟩
        intro y hy
        rcases List.mem_cons.mp hy with rfl | hy2
        · exact hx
        · exact h1 y hy2

theorem updateFirst_append_left {α : Type} (p : α → Bool) (f : α → α)
    (l1 : List α) (a : α) (l2 : List α)
    (h1 : ∀ x ∈ l1, ¬ p x) (ha : p a) :
    updateFirst p f (l1 ++ a :: l2) = l1 ++ f a :: l2 := by
  induction l1 with
  | nil => simp [updateFirst, ha]
  | cons x xs ih =>
      have hx : ¬ p x := h1 x (by simp)
      simp only [List.cons_append, updateFirst, if_neg hx, List.append_eq]
      rw [ih (fun y hy => h1 y (by simp [hy]))]

theorem updateFirst_of_find?_fix {α : Type} (p : α → Bool) (f : α → α)
    (l : List α) (a : α)
    (h : l.find? p = some a) (hf : f a = a) : updateFirst p f l = l := by
  induction l with
  | nil => simp at h
  | cons x xs ih =>
      by_cases hx : p x
      · rw [List.find?_cons_of_pos _ hx] at h
        have hxa : x = a := by simpa using h
        subst hxa
        simp [updateFirst, hx, hf]
      · rw [List.find?_cons_of_neg _ hx] at h
        simp [updateFirst, hx, ih h]

/-- C3: redeeming a refresh token whose hash matches the unique
unrevoked, unexpired session of an active user succeeds, revokes that
session, inserts a rotated session with the fresh token hash, and a
second redemption of the same original token then raises
`InvalidRefreshTokenError`. -/
theorem C3_refresh_rotation_blocks_replay (sha256hex : String → String)
    (s : Settings) (db : Db) (origToken nextToken nextToken2 : String)
    (ip ua ip2 ua2 : String) (now now2 : Int) (sid sid2 : Uuid)
    (sess0 : Session) (u : User)
    (hone : db.sessions.filter
        (fun x => x.refresh_token_hash = sha256hex origToken ∧ x.revoked_at = none) = [sess0])
    (hexp : ¬ _is_expired sess0.expires_at now)
    (huser : _find_active_user_by_identifier db sess0.user_id = some u)
    (hhash : sha256hex nextToken ≠ sha256hex origToken) :
    ∃ r db1,
      refresh_tokens sha256hex s db origToken ip ua now nextToken sid = (.ok r, db1) ∧
      r.refresh_token = nextToken ∧
      { sess0 with revoked_at := some now } ∈ db1.sessions ∧
      (∃ ns ∈ db1.sessions, ns.refresh_token_hash = sha256hex nextToken ∧
        ns.revoked_at = none) ∧
      (refresh_tokens sha256hex s db1 origToken ip2 ua2 now2 nextToken2 sid2).1 =
        .error .invalidRefreshToken := by
  have hstat : u.status = UserStatus.active := by
    unfold _find_active_user_by_identifier at huser
    simpa using (List.mem_filter.mp (List.mem_of_find?_eq_some huser)).2
  have hscalar : scalarOneOrNone
      (fun x => x.refresh_token_hash = sha256hex origToken ∧ x.revoked_at = none)
      db.sessions = .one sess0 := by
    unfold scalarOneOrNone
    rw [hone]
  obtain ⟨l1, l2, hdec, h1, h2, hpa⟩ := filter_eq_singleton_decomp _ _ _ hone
  have hupd : updateFirst
      (fun x => x.refresh_token_hash = sha256hex origToken ∧ x.revoked_at = none)
      (fun x => { x with revoked_at := some now }) db.sessions =
      l1 ++ { sess0 with revoked_at := some now } :: l2 := by
    rw [hdec]
    exact updateFirst_append_left _ _ l1 sess0 l2 h1 hpa
  have hcall : refresh_tokens sha256hex s db origToken ip ua now nextToken sid =
      (.ok { access_token :=
               (issue_access_token s u.id u.org_id u.email u.role.value now none).1
             refresh_token := nextToken },
       { db with
         sessions := updateFirst
             (fun x => x.refresh_token_hash = sha256hex origToken ∧ x.revoked_at = none)
             (fun x => { x with revoked_at := some now }) db.sessions ++
           [{ id := sid, user_id := u.id, refresh_token_hash := sha256hex nextToken
              device_user_agent := ua, ip_address := ip
              expires_at := now + 86400 * s.jwt_refresh_ttl_days * 1000000
              revoked_at := none }]
         audit_logs := db.audit_logs ++
           [{ org_id := u.org_id, actor_id := some u.id, action := .refresh_token
              target_id := some sid, ip_address := ip, user_agent := ua
              geo_location := "unknown" }] }) := by
    unfold refresh_tokens
    simp only [hscalar]
    rw [if_neg hexp]
    simp only [huser]
    rw [if_neg (by simp [hstat])]
  refine ⟨_, _, hcall, rfl, ?_, ?_, ?_⟩
  · rw [hupd]
    simp
  · refine ⟨{ id := sid, user_id := u.id, refresh_token_hash := sha256hex nextToken
              device_user_agent := ua, ip_address := ip
              expires_at := now + 86400 * s.jwt_refresh_ttl_days * 1000000
              revoked_at := none }, ?_, rfl, rfl⟩
    simp
  · have hfilter2 : List.filter
        (fun x : Session => x.refresh_token_hash = sha256hex origToken ∧ x.revoked_at = none)
        (updateFirst
          (fun x : Session => x.refresh_token_hash = sha256hex origToken ∧ x.revoked_at = none)
          (fun x : Session => ({ x with revoked_at := some now } : Session)) db.sessions ++
          ([{ id := sid, user_id := u.id, refresh_token_hash := sha256hex nextToken
              device_user_agent := ua, ip_address := ip
              expires_at := now + 86400 * s.jwt_refresh_ttl_days * 1000000
              revoked_at := none }] : List Session)) = [] := by
      rw [hupd]
      rw [List.filter_append, List.filter_append]
      rw [List.filter_eq_nil_iff.mpr h1]
      rw [List.filter_cons]
      rw [List.filter_eq_nil_iff.mpr h2]
      simp [hhash]
    have hscalar2 : scalarOneOrNone
        (fun x : Session => x.refresh_token_hash = sha256hex origToken ∧ x.revoked_at = none)
        (updateFirst
          (fun x : Session => x.refresh_token_hash = sha256hex origToken ∧ x.revoked_at = none)
          (fun x : Session => ({ x with revoked_at := some now } : Session)) db.sessions ++
          [{ id := sid, user_id := u.id, refresh_token_hash := sha256hex nextToken
             device_user_agent := ua, ip_address := ip
             expires_at := now + 86400 * s.jwt_refresh_ttl_days * 1000000
             revoked_at := none }]) = .noRow := by
      unfold scalarOneOrNone
      rw [hfilter2]
    unfold refresh_tokens
    simp only [hscalar2]

/-- Closed instance of C3: redeeming the stored session of `userA` at
t = 50 rotates it, and replaying the original token fails. -/
theorem C3_witness :
    ∃ r db1,
      refresh_tokens (fun x => x) defaultSettings ⟨[userA], [sessA], []⟩
          "rt1" "ip" "ua" 50 "rt2" "sess2" = (.ok r, db1) ∧
      r.refresh_token = "rt2" ∧
      { sessA with revoked_at := some 50 } ∈ db1.sessions ∧
      (∃ ns ∈ db1.sessions, ns.refresh_token_hash = "rt2" ∧ ns.revoked_at = none) ∧
      (refresh_tokens (fun x => x) defaultSettings db1 "rt1" "ip2" "ua2" 60 "rt3" "sess3").1 =
        .error .invalidRefreshToken :=
  C3_refresh_rotation_blocks_replay (fun x => x) defaultSettings ⟨[userA], [sessA], []⟩
    "rt1" "rt2" "rt3" "ip" "ua" "ip2" "ua2" 50 60 "sess2" "sess3" sessA userA
    (by decide) (by decide) (by decide) (by decide)

theorem scalarOne_eq_filter {α : Type} (p : α → Bool) (l : List α) (a : α)
    (h : scalarOneOrNone p l = .one a) : l.filter p = [a] := by
  unfold scalarOneOrNone at h
  cases hfl : l.filter p with
  | nil =>
      rw [hfl] at h
      simp at h
  | cons b t =>
      cases t with
      | nil =>
          rw [hfl] at h
          have hba : b = a := by simpa using h
          rw [hba]
      | cons c t2 =>
          rw [hfl] at h
          simp at h

theorem scalarNoRow_eq_filter {α : Type} (p : α → Bool) (l : List α)
    (h : scalarOneOrNone p l = .noRow) : l.filter p = [] := by
  unfold scalarOneOrNone at h
  cases hfl : l.filter p with
  | nil => rfl
  | cons b t =>
      cases t with
      | nil =>
          rw [hfl] at h
          simp at h
      | cons c t2 =>
          rw [hfl] at h
          simp at h

theorem find_active_user_spec (db : Db) (ident : Uuid) (u : User)
    (h : _find_active_user_by_identifier db ident = some u) :
    u ∈ db.users ∧ u.status = UserStatus.active ∧ u.id = ident := by
  unfold _find_active_user_by_identifier at h
  have hmem := List.mem_of_find?_eq_some h
  have hid := List.find?_some h
  exact ⟨(List.mem_filter.mp hmem).1, by simpa using (List.mem_filter.mp hmem).2,
    by simpa using hid⟩

theorem forall₂_append_of {α β : Type} {r : α → β → Prop}
    {l1 u1 : List α} {l2 u2 : List β}
    (h : List.Forall₂ r l1 l2) (h2 : List.Forall₂ r u1 u2) :
    List.Forall₂ r (l1 ++ u1) (l2 ++ u2) := by
  induction h with
  | nil => simpa using h2
  | cons hab _ ih => exact List.Forall₂.cons hab ih

/-- C5 (amended): whenever `refresh_tokens` raises
`InvalidRefreshTokenError`, every stored session row whose hash matches
the presented token is revoked in the returned state — except in one
case the original claim misses: a matched row that is unrevoked and
unexpired but whose owning user is not among the active users is left
unrevoked when the error is raised. In particular a matched-but-expired
session is revoked before the error is raised. -/
theorem C5_refresh_error_revokes_matched_row (sha256hex : String → String)
    (s : Settings) (db : Db) (tok ip ua : String) (now : Int)
    (nt : String) (sid : Uuid) (db1 : Db)
    (herr : refresh_tokens sha256hex s db tok ip ua now nt sid =
      (.error .invalidRefreshToken, db1)) :
    List.Forall₂ (fun old new : Session =>
      old.refresh_token_hash = sha256hex tok →
        (new.revoked_at ≠ none ∨
         (old.revoked_at = none ∧ ¬ _is_expired old.expires_at now ∧
          _find_active_user_by_identifier db old.user_id = none)))
      db.sessions db1.sessions := by
  unfold refresh_tokens at herr
  cases hscalar : scalarOneOrNone
      (fun x => x.refresh_token_hash = sha256hex tok ∧ x.revoked_at = none)
      db.sessions with
  | many =>
      simp only [hscalar] at herr
      rw [Prod.mk.injEq] at herr
      simp at herr
  | noRow =>
      simp only [hscalar] at herr
      rw [Prod.mk.injEq] at herr
      obtain ⟨-, hdb⟩ := herr
      subst hdb
      have hnil := scalarNoRow_eq_filter _ _ hscalar
      rw [List.forall₂_same]
      intro x hx hmatch
      left
      have hnp := List.filter_eq_nil_iff.mp hnil x hx
      simp only [decide_eq_true_eq] at hnp
      intro hrev
      exact hnp ⟨hmatch, hrev⟩
  | one sess0 =>
      simp only [hscalar] at herr
      obtain ⟨l1, l2, hdec, h1, h2, hpa⟩ :=
        filter_eq_singleton_decomp _ _ _ (scalarOne_eq_filter _ _ _ hscalar)
      have hpa2 : sess0.refresh_token_hash = sha256hex tok ∧ sess0.revoked_at = none := by
        simpa using hpa
      by_cases hexp : _is_expired sess0.expires_at now
      · rw [if_pos hexp] at herr
        rw [Prod.mk.injEq] at herr
        obtain ⟨-, hdb⟩ := herr
        subst hdb
        rw [hdec, updateFirst_append_left _ _ l1 sess0 l2 h1 hpa]
        apply forall₂_append_of
        · rw [List.forall₂_same]
          intro x hx hmatch
          left
          have hnp := h1 x hx
          simp only [decide_eq_true_eq] at hnp
          intro hrev
          exact hnp ⟨hmatch, hrev⟩
        · refine List.Forall₂.cons ?_ ?_
          · intro _
            left
            simp
          · rw [List.forall₂_same]
            intro x hx hmatch
            left
            have hnp := h2 x hx
            simp only [decide_eq_true_eq] at hnp
            intro hrev
            exact hnp ⟨hmatch, hrev⟩
      · rw [if_neg hexp] at herr
        cases hfind : _find_active_user_by_identifier db sess0.user_id with
        | none =>
            simp only [hfind] at herr
            rw [Prod.mk.injEq] at herr
            obtain ⟨-, hdb⟩ := herr
            subst hdb
            rw [List.forall₂_same]
            intro x hx hmatch
            rw [hdec] at hx
            rcases List.mem_append.mp hx with hx1 | hx2
            · left
              have hnp := h1 x hx1
              simp only [decide_eq_true_eq] at hnp
              intro hrev
              exact hnp ⟨hmatch, hrev⟩
            · rcases List.mem_cons.mp hx2 with rfl | hx3
              · right
                exact ⟨hpa2.2, hexp, hfind⟩
              · left
                have hnp := h2 x hx3
                simp only [decide_eq_true_eq] at hnp
                intro hrev
                exact hnp ⟨hmatch, hrev⟩
        | some v =>
            simp only [hfind] at herr
            have hstat := (find_active_user_spec db sess0.user_id v hfind).2.1
            rw [if_neg (by simp [hstat])] at herr
            rw [Prod.mk.injEq] at herr
            simp at herr

/-- Counterexample to C5 as stated: at this concrete input the token
hash matches the stored unrevoked, unexpired session of a suspended
user; `refresh_tokens` raises `InvalidRefreshTokenError` yet returns
the database unchanged, leaving the matched row unrevoked. -/
theorem C5_counterexample :
    refresh_tokens (fun x => x) defaultSettings ⟨[userS], [sessS], []⟩
        "rt3" "ip" "ua" 50 "nt" "sess9" =
      (.error .invalidRefreshToken, ⟨[userS], [sessS], []⟩) ∧
    sessS.refresh_token_hash = "rt3" ∧ sessS.revoked_at = none := by
  decide

/-- Closed instance of C5 (amended): redeeming the expired session of
`userA` at t = 50 raises the error with the matched row revoked. -/
theorem C5_witness :
    List.Forall₂ (fun old new : Session =>
      old.refresh_token_hash = "rt1" →
        (new.revoked_at ≠ none ∨
         (old.revoked_at = none ∧ ¬ _is_expired old.expires_at (50 : Int) ∧
          _find_active_user_by_identifier
            ⟨[userA], [{ sessA with expires_at := 10 }], []⟩ old.user_id = none)))
      [{ sessA with expires_at := 10 }]
      [{ sessA with expires_at := 10, revoked_at := some 50 }] :=
  C5_refresh_error_revokes_matched_row (fun x => x) defaultSettings
    ⟨[userA], [{ sessA with expires_at := 10 }], []⟩ "rt1" "ip" "ua" 50 "nt" "sid9"
    ⟨[userA], [{ sessA with expires_at := 10, revoked_at := some 50 }], []⟩ (by decide)

/-- C6 (amended): for both revocation entry points, a missing target or
a target owned by a different user raises `SessionNotFoundError` with
the database unchanged; an already-revoked own session is reported
not-found by `revoke_session_by_refresh_token` (its query only sees
unrevoked rows), while `revoke_session_by_id` treats re-revocation as
an idempotent success, leaving the rows unchanged and raising nothing. -/
theorem C6_session_revocation_spec (sha256hex : String → String) (s : Settings) :
    (∀ db tok sid ip ua jn n u, get_user_from_access_token s jn db tok = .ok u →
       db.sessions.find? (fun x => x.id = sid) = none →
       revoke_session_by_id s db tok sid ip ua jn n = (.error .sessionNotFound, db)) ∧
    (∀ db tok sid ip ua jn n u t, get_user_from_access_token s jn db tok = .ok u →
       db.sessions.find? (fun x => x.id = sid) = some t → t.user_id ≠ u.id →
       revoke_session_by_id s db tok sid ip ua jn n = (.error .sessionNotFound, db)) ∧
    (∀ db tok rt ip ua jn n u, get_user_from_access_token s jn db tok = .ok u →
       db.sessions.filter
         (fun x => x.refresh_token_hash = sha256hex rt ∧ x.revoked_at = none) = [] →
       revoke_session_by_refresh_token sha256hex s db tok rt ip ua jn n =
         (.error .sessionNotFound, db)) ∧
    (∀ db tok rt ip ua jn n u t, get_user_from_access_token s jn db tok = .ok u →
       db.sessions.filter
         (fun x => x.refresh_token_hash = sha256hex rt ∧ x.revoked_at = none) = [t] →
       t.user_id ≠ u.id →
       revoke_session_by_refresh_token sha256hex s db tok rt ip ua jn n =
         (.error .sessionNotFound, db)) ∧
    (∀ db tok sid ip ua jn n u t t0, get_user_from_access_token s jn db tok = .ok u →
       db.sessions.find? (fun x => x.id = sid) = some t → t.user_id = u.id →
       t.revoked_at = some t0 →
       (revoke_session_by_id s db tok sid ip ua jn n).1 = .ok () ∧
       (revoke_session_by_id s db tok sid ip ua jn n).2.sessions = db.sessions) := by
  refine ⟨?_, ?_, ?_, ?_, ?_⟩
  · intro db tok sid ip ua jn n u hget hfind
    unfold revoke_session_by_id
    simp only [hget, hfind]
  · intro db tok sid ip ua jn n u t hget hfind hne
    unfold revoke_session_by_id
    simp only [hget, hfind]
    rw [if_pos hne]
  · intro db tok rt ip ua jn n u hget hfilter
    unfold revoke_session_by_refresh_token
    simp only [hget]
    have hscalar : scalarOneOrNone
        (fun x => x.refresh_token_hash = sha256hex rt ∧ x.revoked_at = none)
        db.sessions = .noRow := by
      unfold scalarOneOrNone
      rw [hfilter]
    simp only [hscalar]
  · intro db tok rt ip ua jn n u t hget hfilter hne
    unfold revoke_session_by_refresh_token
    simp only [hget]
    have hscalar : scalarOneOrNone
        (fun x => x.refresh_token_hash = sha256hex rt ∧ x.revoked_at = none)
        db.sessions = .one t := by
      unfold scalarOneOrNone
      rw [hfilter]
    simp only [hscalar]
    rw [if_pos hne]
  · intro db tok sid ip ua jn n u t t0 hget hfind hown hrev
    unfold revoke_session_by_id
    simp only [hget, hfind]
    rw [if_neg (by simp [hown])]
    refine ⟨rfl, ?_⟩
    exact updateFirst_of_find?_fix _ _ _ _ hfind (by simp [hrev])

/-- Counterexample to C6 as stated: revoking the same session twice by
id does not surface not-found on the second call; the second revocation
returns success. -/
theorem C6_counterexample :
    (revoke_session_by_id defaultSettings
        ((revoke_session_by_id defaultSettings ⟨[userA], [sessA], []⟩
            tokenA "sess1" "ip" "ua" 0 10).2)
        tokenA "sess1" "ip" "ua" 0 50).1 = .ok () := by
  decide

/-- Closed instance of C6 (amended), last conjunct: re-revoking the
already-revoked own session succeeds and leaves the stored sessions
unchanged. -/
theorem C6_witness :
    (revoke_session_by_id defaultSettings
        ⟨[userA], [{ sessA with revoked_at := some 10 }], []⟩
        tokenA "sess1" "ip" "ua" 0 50).1 = .ok () ∧
    (revoke_session_by_id defaultSettings
        ⟨[userA], [{ sessA with revoked_at := some 10 }], []⟩
        tokenA "sess1" "ip" "ua" 0 50).2.sessions =
      (⟨[userA], [{ sessA with revoked_at := some 10 }], []⟩ : Db).sessions :=
  (C6_session_revocation_spec (fun x => x) defaultSettings).2.2.2.2
    ⟨[userA], [{ sessA with revoked_at := some 10 }], []⟩ tokenA "sess1" "ip" "ua" 0 50
    userA { sessA with revoked_at := some 10 } 10
    (by decide) (by decide) (by decide) (by decide)

theorem limiterSet_limiterSet (st : LimiterState) (ip : String)
    (l1 l2 : List Int) :
    LoginRateLimiter.limiterSet (LoginRateLimiter.limiterSet st ip l1) ip l2 =
      LoginRateLimiter.limiterSet st ip l2 := by
  unfold LoginRateLimiter.limiterSet
  rw [List.filter_cons]
  simp [List.filter_filter]

theorem is_rate_limited_no_prune (st : LimiterState) (ip : String) (now : Int)
    (S : List Int) (hget : LoginRateLimiter.limiterGet st ip = S)
    (h : ∀ x ∈ S, ¬ (x < now - FAILED_ATTEMPTS_WINDOW_SECONDS)) :
    LoginRateLimiter.is_rate_limited st ip now =
      (decide (S.length > MAX_FAILED_ATTEMPTS), LoginRateLimiter.limiterSet st ip S) := by
  unfold LoginRateLimiter.is_rate_limited LoginRateLimiter._prune_and_get
  rw [hget, dropWhile_eq_self_of_forall_not _ _ (by intro x hx; simpa using h x hx)]

theorem register_failure_no_prune (st : LimiterState) (ip : String) (now : Int)
    (S : List Int) (hget : LoginRateLimiter.limiterGet st ip = S)
    (h : ∀ x ∈ S, ¬ (x < now - FAILED_ATTEMPTS_WINDOW_SECONDS)) :
    LoginRateLimiter.register_failure st ip now =
      (decide ((S ++ [now]).length > MAX_FAILED_ATTEMPTS),
       LoginRateLimiter.limiterSet st ip (S ++ [now])) := by
  unfold LoginRateLimiter.register_failure LoginRateLimiter._prune_and_get
  rw [hget, dropWhile_eq_self_of_forall_not _ _ (by intro x hx; simpa using h x hx)]

theorem login_user_limited_eval (sha256hex : String → String) (hasher : Hasher)
    (s : Settings) (db : Db) (payload : LoginRequest) (ip ua : String)
    (st : LimiterState) (c f now : Int) (frt : String) (fsid : Uuid)
    (S : List Int) (hget : LoginRateLimiter.limiterGet st ip = S)
    (hS1 : ∀ x ∈ S, ¬ (x < c - FAILED_ATTEMPTS_WINDOW_SECONDS))
    (hlen : S.length > MAX_FAILED_ATTEMPTS) :
    login_user sha256hex hasher s db payload ip ua st c f now frt fsid =
      (.error .tooManyAttempts, db, LoginRateLimiter.limiterSet st ip S) := by
  unfold login_user
  rw [is_rate_limited_no_prune st ip c S hget hS1]
  simp only [hlen]
  simp

theorem login_user_failed_eval (sha256hex : String → String) (hasher : Hasher)
    (s : Settings) (db : Db) (payload : LoginRequest) (ip ua : String)
    (st : LimiterState) (c f now : Int) (frt : String) (fsid : Uuid)
    (S : List Int) (hget : LoginRateLimiter.limiterGet st ip = S)
    (hS1 : ∀ x ∈ S, ¬ (x < c - FAILED_ATTEMPTS_WINDOW_SECONDS))
    (hS2 : ∀ x ∈ S, ¬ (x < f - FAILED_ATTEMPTS_WINDOW_SECONDS))
    (hfail : loginAttemptFails hasher db payload)
    (hlen : ¬ S.length > MAX_FAILED_ATTEMPTS) :
    login_user sha256hex hasher s db payload ip ua st c f now frt fsid =
      (.error (if (S ++ [f]).length > MAX_FAILED_ATTEMPTS then
                 AuthError.tooManyAttempts else AuthError.invalidCredentials),
       db, LoginRateLimiter.limiterSet st ip (S ++ [f])) := by
  have hreg := register_failure_no_prune (LoginRateLimiter.limiterSet st ip S) ip f S
    (limiterGet_limiterSet st ip S) hS2
  unfold login_user
  rw [is_rate_limited_no_prune st ip c S hget hS1]
  simp only []
  rw [if_neg (by simpa using hlen)]
  unfold loginAttemptFails at hfail
  cases hscalar : scalarOneOrNone
      (fun u => u.email = pyLower (pyStrip payload.email)) db.users with
  | many =>
      rw [hscalar] at hfail
      exact absurd hfail (by simp)
  | noRow =>
      simp only [hscalar]
      rw [hreg, limiterSet_limiterSet]
      simp only [decide_eq_true_eq]
      split <;> rfl
  | one user =>
      rw [hscalar] at hfail
      simp only [hscalar]
      rw [if_pos (by
        rcases hfail with h | h
        · left
          simp [h]
        · right
          exact h)]
      rw [hreg, limiterSet_limiterSet]
      simp only [decide_eq_true_eq]
      split <;> rfl

theorem expectedOutputs_cons (k n : ℕ) :
    (List.range (n + 1)).map (fun i =>
      (Except.error (if k + i < 5 then AuthError.invalidCredentials
        else AuthError.tooManyAttempts) : Except AuthError LoginResult)) =
      (Except.error (if k < 5 then AuthError.invalidCredentials
        else AuthError.tooManyAttempts) : Except AuthError LoginResult) ::
      (List.range n).map (fun i =>
        (Except.error (if (k + 1) + i < 5 then AuthError.invalidCredentials
          else AuthError.tooManyAttempts) : Except AuthError LoginResult)) := by
  rw [List.range_succ_eq_map]
  simp only [List.map_cons, List.map_map, Nat.add_zero]
  refine congrArg₂ List.cons rfl ?_
  apply List.map_congr_left
  intro i hi
  have hadd : k + (i + 1) = (k + 1) + i := by omega
  simp [Function.comp, Nat.succ_eq_add_one, hadd]

theorem runFailedLogins_spec (sha256hex : String → String) (hasher : Hasher)
    (s : Settings) (payload : LoginRequest) (ip ua : String)
    (now : Int) (frt : String) (fsid : Uuid) :
    ∀ (attempts : List (Int × Int)) (db : Db) (st : LimiterState) (k : ℕ)
      (S : List Int),
      loginAttemptFails hasher db payload →
      LoginRateLimiter.limiterGet st ip = S →
      S.length = min k 6 →
      (∀ x ∈ S, ∀ q ∈ attempts,
        ¬ (x < q.1 - FAILED_ATTEMPTS_WINDOW_SECONDS) ∧
        ¬ (x < q.2 - FAILED_ATTEMPTS_WINDOW_SECONDS)) →
      attempts.Pairwise (fun p q =>
        ¬ (p.2 < q.1 - FAILED_ATTEMPTS_WINDOW_SECONDS) ∧
        ¬ (p.2 < q.2 - FAILED_ATTEMPTS_WINDOW_SECONDS)) →
      ∃ st2, runFailedLogins sha256hex hasher s payload ip ua now frt fsid db st attempts =
        ((List.range attempts.length).map (fun i =>
          .error (if k + i < 5 then AuthError.invalidCredentials
            else AuthError.tooManyAttempts)),
         db, st2) := by
  intro attempts
  induction attempts with
  | nil =>
      intro db st k S hfail hget hlen hS hpair
      exact ⟨st, rfl⟩
  | cons a rest ih =>
      intro db st k S hfail hget hlen hS hpair
      obtain ⟨c, f⟩ := a
      have hmemA : (c, f) ∈ (c, f) :: rest := by simp
      have hS1 : ∀ x ∈ S, ¬ (x < c - FAILED_ATTEMPTS_WINDOW_SECONDS) :=
        fun x hx => (hS x hx _ hmemA).1
      have hS2 : ∀ x ∈ S, ¬ (x < f - FAILED_ATTEMPTS_WINDOW_SECONDS) :=
        fun x hx => (hS x hx _ hmemA).2
      have hpairhead := (List.pairwise_cons.mp hpair).1
      have hpairrest := (List.pairwise_cons.mp hpair).2
      by_cases hk : 6 ≤ k
      · have hlen6 : S.length > MAX_FAILED_ATTEMPTS := by
          rw [hlen]
          unfold MAX_FAILED_ATTEMPTS
          omega
        have hstep := login_user_limited_eval sha256hex hasher s db payload ip ua
          st c f now frt fsid S hget hS1 hlen6
        obtain ⟨st2, hrest⟩ := ih db (LoginRateLimiter.limiterSet st ip S) (k + 1) S hfail
          (limiterGet_limiterSet st ip S) (by omega)
          (fun x hx q hq => hS x hx q (by simp [hq])) hpairrest
        refine ⟨st2, ?_⟩
        unfold runFailedLogins
        rw [hstep]
        simp only []
        rw [hrest]
        simp only [List.length_cons]
        rw [expectedOutputs_cons k rest.length]
        rw [if_neg (by omega)]
      · have hlenk : S.length = k := by omega
        have hnot : ¬ S.length > MAX_FAILED_ATTEMPTS := by
          rw [hlenk]
          unfold MAX_FAILED_ATTEMPTS
          omega
        have hstep := login_user_failed_eval sha256hex hasher s db payload ip ua
          st c f now frt fsid S hget hS1 hS2 hfail hnot
        obtain ⟨st2, hrest⟩ := ih db (LoginRateLimiter.limiterSet st ip (S ++ [f]))
          (k + 1) (S ++ [f]) hfail
          (limiterGet_limiterSet st ip (S ++ [f]))
          (by simp [hlenk]; omega)
          (by
            intro x hx q hq
            rcases List.mem_append.mp hx with hxS | hxf
            · exact hS x hxS q (by simp [hq])
            · have hxf2 : x = f := by simpa using hxf
              subst hxf2
              exact hpairhead q hq)
          hpairrest
        refine ⟨st2, ?_⟩
        unfold runFailedLogins
        rw [hstep]
        simp only []
        rw [hrest]
        simp only [List.length_cons]
        rw [expectedOutputs_cons k rest.length]
        have hlenS : (S ++ [f]).length = k + 1 := by
          simp [hlenk]
        rw [hlenS]
        by_cases hk5 : k < 5
        · rw [if_pos hk5, if_neg (by unfold MAX_FAILED_ATTEMPTS; omega)]
        · rw [if_neg hk5, if_pos (by unfold MAX_FAILED_ATTEMPTS; omega)]

/-- C4: starting from an IP with no recorded failures, a run of failed
login attempts inside the 15-minute window raises
`InvalidCredentialsError` on each of the first 5 attempts and
`TooManyAttemptsError` on the 6th and every later attempt, leaving the
database untouched; a successful login resets the counter for the IP to
empty; and `is_rate_limited` holds exactly when the stored in-window
failure count exceeds 5. -/
theorem C4_rate_limiting_spec (sha256hex : String → String) (hasher : Hasher)
    (s : Settings) :
    (∀ (payload : LoginRequest) (ip ua : String) (now : Int) (frt : String)
       (fsid : Uuid) (attempts : List (Int × Int)) (db : Db) (st : LimiterState),
       loginAttemptFails hasher db payload →
       LoginRateLimiter.limiterGet st ip = [] →
       (attempts.Pairwise fun p q =>
         ¬ (p.2 < q.1 - FAILED_ATTEMPTS_WINDOW_SECONDS) ∧
         ¬ (p.2 < q.2 - FAILED_ATTEMPTS_WINDOW_SECONDS)) →
       ∃ st2, runFailedLogins sha256hex hasher s payload ip ua now frt fsid
           db st attempts =
         ((List.range attempts.length).map fun i =>
           .error (if i < 5 then AuthError.invalidCredentials
             else AuthError.tooManyAttempts),
          db, st2)) ∧
    (∀ (db : Db) (payload : LoginRequest) (ip ua : String) (st : LimiterState)
       (c f now : Int) (frt : String) (fsid : Uuid) (r : LoginResult) (db2 : Db)
       (st2 : LimiterState),
       login_user sha256hex hasher s db payload ip ua st c f now frt fsid =
         (.ok r, db2, st2) →
       LoginRateLimiter.limiterGet st2 ip = []) ∧
    (∀ (st : LimiterState) (ip : String) (now : Int),
       (LoginRateLimiter.is_rate_limited st ip now).1 = true ↔
         (LoginRateLimiter._prune_and_get st ip now).length > MAX_FAILED_ATTEMPTS) := by
  refine ⟨?_, ?_, ?_⟩
  · intro payload ip ua now frt fsid attempts db st hfail hget hpair
    obtain ⟨st2, heq⟩ := runFailedLogins_spec sha256hex hasher s payload ip ua now
      frt fsid attempts db st 0 [] hfail hget (by simp)
      (fun x hx => absurd hx (by simp)) hpair
    refine ⟨st2, ?_⟩
    rw [heq]
    refine congrArg₂ Prod.mk ?_ rfl
    apply List.map_congr_left
    intro i hi
    simp
  · intro db payload ip ua st c f now frt fsid r db2 st2 h
    unfold login_user at h
    cases hirl : LoginRateLimiter.is_rate_limited st ip c with
    | mk limited st1 =>
        rw [hirl] at h
        simp only [] at h
        cases limited with
        | true =>
            rw [Prod.mk.injEq] at h
            simp at h
        | false =>
            simp only [Bool.false_eq_true, if_false] at h
            cases hsc : scalarOneOrNone
                (fun u => u.email = pyLower (pyStrip payload.email)) db.users with
            | many =>
                rw [hsc] at h
                rw [Prod.mk.injEq] at h
                simp at h
            | noRow =>
                rw [hsc] at h
                simp only [] at h
                cases hrf : LoginRateLimiter.register_failure st1 ip f with
                | mk b st3 =>
                    rw [hrf] at h
                    simp only [] at h
                    cases b with
                    | true =>
                        rw [Prod.mk.injEq] at h
                        simp at h
                    | false =>
                        simp only [Bool.false_eq_true, if_false] at h
                        rw [Prod.mk.injEq] at h
                        simp at h
            | one user =>
                rw [hsc] at h
                simp only [] at h
                by_cases hcond : ¬ hasher.verify user.auth_verifier_hash payload.auth_verifier = true
                    ∨ user.status ≠ UserStatus.active
                · rw [if_pos hcond] at h
                  cases hrf : LoginRateLimiter.register_failure st1 ip f with
                  | mk b st3 =>
                      rw [hrf] at h
                      simp only [] at h
                      cases b with
                      | true =>
                          rw [Prod.mk.injEq] at h
                          simp at h
                      | false =>
                          simp only [Bool.false_eq_true, if_false] at h
                          rw [Prod.mk.injEq] at h
                          simp at h
                · rw [if_neg hcond] at h
                  rw [Prod.mk.injEq] at h
                  obtain ⟨-, h2⟩ := h
                  rw [Prod.mk.injEq] at h2
                  obtain ⟨-, h3⟩ := h2
                  rw [← h3]
                  exact limiterGet_reset st1 ip
  · intro st ip now
    unfold LoginRateLimiter.is_rate_limited
    simp

/-- Closed instance of C4: seven failed attempts from a clean IP within
the window yield five `InvalidCredentialsError` results and then two
`TooManyAttemptsError` results, with the database unchanged. -/
theorem C4_witness :
    ∃ st2, runFailedLogins (fun x => x) idHasher defaultSettings
        ⟨"x@example.com", "v"⟩ "9.9.9.9" "ua" 0 "frt" "sid" ⟨[], [], []⟩ []
        [(0, 0), (1, 1), (2, 2), (3, 3), (4, 4), (5, 5), (6, 6)] =
      ([.error .invalidCredentials, .error .invalidCredentials,
        .error .invalidCredentials, .error .invalidCredentials,
        .error .invalidCredentials, .error .tooManyAttempts,
        .error .tooManyAttempts], ⟨[], [], []⟩, st2) := by
  obtain ⟨st2, h⟩ := (C4_rate_limiting_spec (fun x => x) idHasher defaultSettings).1
    ⟨"x@example.com", "v"⟩ "9.9.9.9" "ua" 0 "frt" "sid"
    [(0, 0), (1, 1), (2, 2), (3, 3), (4, 4), (5, 5), (6, 6)] ⟨[], [], []⟩ []
    (by trivial) rfl (by decide)
  exact ⟨st2, by rw [h]; rfl⟩

/-- C2 (against the spec-modelled MFA-aware login): a stored active user
with MFA enabled presenting the correct verifier gets an MFA-challenge
result — `mfa_required` true, an MFA token, no access token — with no
session row created (the whole database is unchanged); and whenever a
login changes the stored sessions, the resulting user has MFA disabled
and the full token pair is present. -/
theorem C2_login_mfa_challenge (sha256hex : String → String) (hasher : Hasher)
    (s : Settings) :
    (∀ (db : Db) (payload : LoginRequest) (ip ua : String) (st : LimiterState)
       (c f now : Int) (frt : String) (fsid : Uuid) (u : User),
       (LoginRateLimiter.is_rate_limited st ip c).1 = false →
       scalarOneOrNone (fun x => x.email = pyLower (pyStrip payload.email))
         db.users = .one u →
       hasher.verify u.auth_verifier_hash payload.auth_verifier = true →
       u.status = UserStatus.active →
       u.mfa_enabled = true →
       ∃ st2 mfaTok,
         login_user_mfa sha256hex hasher s db payload ip ua st c f now frt fsid =
           (.ok { access_token := none, refresh_token := none, user := none
                  mfa_required := true, mfa_token := some mfaTok }, db, st2)) ∧
    (∀ (db : Db) (payload : LoginRequest) (ip ua : String) (st : LimiterState)
       (c f now : Int) (frt : String) (fsid : Uuid) (r : MfaLoginResult)
       (db2 : Db) (st2 : LimiterState),
       login_user_mfa sha256hex hasher s db payload ip ua st c f now frt fsid =
         (.ok r, db2, st2) →
       db2.sessions ≠ db.sessions →
       ∃ v, r.user = some v ∧ v.mfa_enabled = false ∧
         r.access_token.isSome = true ∧ r.refresh_token.isSome = true ∧
         r.mfa_required = false) := by
  constructor
  · intro db payload ip ua st c f now frt fsid u hlim hsc hver hstat hmfa
    cases hirl : LoginRateLimiter.is_rate_limited st ip c with
    | mk b st1 =>
        have hb : b = false := by
          rw [hirl] at hlim
          exact hlim
        subst hb
        refine ⟨LoginRateLimiter.reset st1 ip,
          (issue_mfa_token s u.id u.org_id u.email u.role.value now none).1, ?_⟩
        unfold login_user_mfa
        rw [hirl]
        simp only [Bool.false_eq_true, if_false]
        rw [hsc]
        simp only []
        rw [if_neg (by simp [hver, hstat])]
        rw [if_pos hmfa]
  · intro db payload ip ua st c f now frt fsid r db2 st2 h hne
    unfold login_user_mfa at h
    cases hirl : LoginRateLimiter.is_rate_limited st ip c with
    | mk limited st1 =>
        rw [hirl] at h
        simp only [] at h
        cases limited with
        | true =>
            rw [Prod.mk.injEq] at h
            simp at h
        | false =>
            simp only [Bool.false_eq_true, if_false] at h
            cases hsc : scalarOneOrNone
                (fun x => x.email = pyLower (pyStrip payload.email)) db.users with
            | many =>
                rw [hsc] at h
                rw [Prod.mk.injEq] at h
                simp at h
            | noRow =>
                rw [hsc] at h
                simp only [] at h
                cases hrf : LoginRateLimiter.register_failure st1 ip f with
                | mk b st3 =>
                    rw [hrf] at h
                    simp only [] at h
                    cases b with
                    | true =>
                        rw [Prod.mk.injEq] at h
                        simp at h
                    | false =>
                        simp only [Bool.false_eq_true, if_false] at h
                        rw [Prod.mk.injEq] at h
                        simp at h
            | one user =>
                rw [hsc] at h
                simp only [] at h
                by_cases hcond : ¬ hasher.verify user.auth_verifier_hash
                    payload.auth_verifier = true ∨ user.status ≠ UserStatus.active
                · rw [if_pos hcond] at h
                  cases hrf : LoginRateLimiter.register_failure st1 ip f with
                  | mk b st3 =>
                      rw [hrf] at h
                      simp only [] at h
                      cases b with
                      | true =>
                          rw [Prod.mk.injEq] at h
                          simp at h
                      | false =>
                          simp only [Bool.false_eq_true, if_false] at h
                          rw [Prod.mk.injEq] at h
                          simp at h
                · rw [if_neg hcond] at h
                  by_cases hmfa : user.mfa_enabled = true
                  · rw [if_pos hmfa] at h
                    rw [Prod.mk.injEq] at h
                    obtain ⟨-, hdb⟩ := h
                    rw [Prod.mk.injEq] at hdb
                    exact absurd (congrArg Db.sessions hdb.1.symm) hne
                  · rw [if_neg hmfa] at h
                    rw [Prod.mk.injEq] at h
                    obtain ⟨hr, -⟩ := h
                    simp only [Except.ok.injEq] at hr
                    subst hr
                    exact ⟨user, rfl, by simpa using hmfa, rfl, rfl, rfl⟩

/-- Closed instance of C2: the MFA-enabled `userM` logging in with the
correct verifier receives an MFA challenge and no session is created. -/
theorem C2_witness :
    ∃ st2 mfaTok,
      login_user_mfa (fun x => x) idHasher defaultSettings ⟨[userM], [], []⟩
          ⟨"m@example.com", "secret2"⟩ "ip" "ua" [] 0 0 0 "frt" "sid" =
        (.ok { access_token := none, refresh_token := none, user := none
               mfa_required := true, mfa_token := some mfaTok },
         ⟨[userM], [], []⟩, st2) :=
  (C2_login_mfa_challenge (fun x => x) idHasher defaultSettings).1
    ⟨[userM], [], []⟩ ⟨"m@example.com", "secret2"⟩ "ip" "ua" [] 0 0 0 "frt" "sid"
    userM (by decide) (by decide) (by decide) (by decide) (by decide)
